import Mathlib

/-!
Verification development for the chat client repository
(react-vite-tailwind-langchain-boilerplate).

The definitions below are a shallow embedding of the streaming chat core:

* the message data model (`frontend/src/types/api.ts`),
* the socket event handlers and send paths of the streaming `Chat`
  component (`frontend/src/components/Chat.tsx`),
* the redux chat-slice reducers (`chatSlice`),
* the `SocketService` connection manager / event router
  (`services/socket.ts`).

JavaScript strings are Lean `String`; `Date` timestamps are `Nat`
(milliseconds); optional (possibly `undefined`) fields are `Option`;
the boolean field `isStreaming?` is a `Bool` defaulting to `false`
(the code consults it only through truthiness, under which `undefined`
and `false` coincide).  Fallible network calls are `Except` values
supplied as arguments, so every scheduler interleaving the claims talk
about can be replayed as explicit data.
-/

namespace ChatCore

/-- File attachment kind, from the `'image' | 'document' | 'other'`
union in `types/api.ts`. -/
inductive FileKind where
  | image
  | document
  | other
deriving DecidableEq, Repr

/-- `FileAttachment` from `types/api.ts`. -/
structure FileAttachment where
  id : String
  type : FileKind
  name : String
  url : String
  previewUrl : Option String := none
deriving DecidableEq, Repr

/-- Message author, from the `'user' | 'bot'` union in `types/api.ts`. -/
inductive Sender where
  | user
  | bot
deriving DecidableEq, Repr

/-- `StreamingMessage` from `types/api.ts`.  `isStreaming` is optional in
the source and only ever read through truthiness, so it is a `Bool` with
default `false`. -/
structure StreamingMessage where
  id : String
  text : String
  sender : Sender
  timestamp : Nat
  isStreaming : Bool := false
  model : Option String := none
  files : Option (List FileAttachment) := none
deriving DecidableEq, Repr

/-- `ApiError` from `types/api.ts`. -/
structure ApiError where
  status : Nat
  message : String
deriving DecidableEq, Repr

/-- `ChatResponse` from `types/api.ts`. -/
structure ChatResponse where
  response : String
  model : String
deriving DecidableEq, Repr

/-- The react state of the streaming `Chat` component that the socket
handlers touch: `messages`, `isLoading`, `error`
(`Chat.tsx`, `useState` declarations). -/
structure ChatComponentState where
  messages : List StreamingMessage
  isLoading : Bool
  error : Option String
deriving DecidableEq, Repr

/-- Initial component state: empty conversation, not loading, no error. -/
def initChatState : ChatComponentState :=
  { messages := [], isLoading := false, error := none }

/-- Replace the last element of a nonempty list, as the handlers do with
`updatedMessages[prev.length - 1] = ...` after copying the array. -/
def setLast (msgs : List StreamingMessage) (m : StreamingMessage) :
    List StreamingMessage :=
  msgs.dropLast ++ [m]

/-- `onChatToken` handler body (`Chat.tsx`): if the last message exists and
is streaming, append the token to its text; otherwise return the list
unchanged. -/
def onChatToken (token : String) (msgs : List StreamingMessage) :
    List StreamingMessage :=
  match msgs.getLast? with
  | some lastMessage =>
      if lastMessage.isStreaming then
        setLast msgs { lastMessage with text := lastMessage.text ++ token }
      else msgs
  | none => msgs

/-- `onChatImage` handler body (`Chat.tsx`): if the last message exists and
is streaming, append a generated-image attachment built from the event url;
otherwise return the list unchanged. -/
def onChatImage (url : String) (now : Nat) (msgs : List StreamingMessage) :
    List StreamingMessage :=
  match msgs.getLast? with
  | some lastMessage =>
      if lastMessage.isStreaming then
        setLast msgs
          { lastMessage with
              files := some ((lastMessage.files.getD []) ++
                [{ id := "img_" ++ toString now,
                   type := FileKind.image,
                   name := "AI Generated Image",
                   url := url,
                   previewUrl := some url }]) }
      else msgs
  | none => msgs

/-- `onChatComplete` handler (`Chat.tsx`): finalize the last message if it
is streaming (clear `isStreaming`, record the model), and set
`isLoading` false. -/
def onChatComplete (model : String) (s : ChatComponentState) :
    ChatComponentState :=
  let msgs :=
    match s.messages.getLast? with
    | some lastMessage =>
        if lastMessage.isStreaming then
          setLast s.messages
            { lastMessage with isStreaming := false, model := some model }
        else s.messages
    | none => s.messages
  { s with messages := msgs, isLoading := false }

/-- The bot error bubble appended by the error paths:
`Sorry, I encountered an error: ` plus the reported message, with the
source's falsy-string fallback `Please try again later.`. -/
def mkErrorBubble (now : Nat) (raw : String) : StreamingMessage :=
  { id := toString (now + 1),
    text := "Sorry, I encountered an error: " ++
      (if raw == "" then "Please try again later." else raw),
    sender := Sender.bot,
    timestamp := now }

/-- The error string stored by `setError`, with the source's falsy-string
fallback `Unknown error occurred`. -/
def errorStateOf (raw : String) : String :=
  if raw == "" then "Unknown error occurred" else raw

/-- `onChatError` handler (`Chat.tsx`): first remove the last message if it
is streaming (`prev.slice(0, -1)`), then append a fresh non-streaming bot
error bubble, record the error string, and set `isLoading` false. -/
def onChatError (raw : String) (now : Nat) (s : ChatComponentState) :
    ChatComponentState :=
  let msgs1 :=
    match s.messages.getLast? with
    | some lastMessage =>
        if lastMessage.isStreaming then s.messages.dropLast else s.messages
    | none => s.messages
  { s with
      messages := msgs1 ++ [mkErrorBubble now raw],
      error := some (errorStateOf raw),
      isLoading := false }

/-- Inbound socket events consumed by the `Chat` component
(`chat_start`, `chat_token`, `chat_complete`, `chat_error`, `chat_image`,
`heartbeat`). -/
inductive SocketEvent where
  | chatStart
  | chatToken (token : String)
  | chatComplete (model : String)
  | chatError (message : String)
  | chatImage (url : String)
  | heartbeat
deriving DecidableEq, Repr

/-- Dispatch one inbound event to the component handlers registered in the
`Chat` setup effect.  `chat_start` and `heartbeat` only log and leave the
component state unchanged.  `now` is the wall clock used for fresh ids. -/
def applyEvent (now : Nat) (e : SocketEvent) (s : ChatComponentState) :
    ChatComponentState :=
  match e with
  | SocketEvent.chatStart => s
  | SocketEvent.chatToken t => { s with messages := onChatToken t s.messages }
  | SocketEvent.chatComplete m => onChatComplete m s
  | SocketEvent.chatError msg => onChatError msg now s
  | SocketEvent.chatImage url => { s with messages := onChatImage url now s.messages }
  | SocketEvent.heartbeat => s

/-- Deliver a list of timestamped events in order. -/
def runEvents (es : List (Nat × SocketEvent)) (s : ChatComponentState) :
    ChatComponentState :=
  es.foldl (fun st p => applyEvent p.1 p.2 st) s

/-- The user message appended by `handleSendMessage`; `text` is the already
trimmed input value (`inputValue.trim()`). -/
def mkUserMessage (now : Nat) (text : String) : StreamingMessage :=
  { id := toString now, text := text, sender := Sender.user, timestamp := now }

/-- The bot reply appended by `handleNonStreamingRequest` on HTTP success. -/
def mkBotMessage (now : Nat) (response : String) : StreamingMessage :=
  { id := toString (now + 1), text := response, sender := Sender.bot,
    timestamp := now }

/-- The empty streaming placeholder opened by the streaming branch of
`handleSendMessage` (`isStreaming: true`, empty text). -/
def streamingPlaceholder (now : Nat) : StreamingMessage :=
  { id := toString (now + 1), text := "", sender := Sender.bot,
    timestamp := now, isStreaming := true }

/-- `handleNonStreamingRequest` (`Chat.tsx`), text-only shape: await the
HTTP fallback (`result` is its outcome), then append either the bot reply
or an error bubble; `isLoading` is cleared in the `finally` block.  The
function is total: the source's `catch` swallows every failure, so no
exception escapes to the caller. -/
def handleNonStreamingRequest (now : Nat) (result : Except ApiError ChatResponse)
    (s : ChatComponentState) : ChatComponentState :=
  match result with
  | Except.ok data =>
      { s with messages := s.messages ++ [mkBotMessage now data.response],
               isLoading := false }
  | Except.error e =>
      { s with messages := s.messages ++ [mkErrorBubble now e.message],
               error := some (errorStateOf e.message),
               isLoading := false }

/-- `handleSendMessage` (`Chat.tsx`), text-only shape.  `text` is the
trimmed input; the guard returns early on empty text or while loading.
`useStream`/`connected` are the component's `useStreaming` and
`isSocketConnected` flags at send time; `emitOk` records whether
`socketService.sendChatRequest` succeeded (it throws when the socket is
not actually connected, and the `catch` falls back to
`handleNonStreamingRequest`); `result` is the HTTP fallback outcome where
that path runs.  The fallback exchange is modelled as completing before
the next action (one faithful schedule of the async code). -/
def handleSendMessage (now : Nat) (text : String)
    (useStream connected emitOk : Bool)
    (result : Except ApiError ChatResponse) (s : ChatComponentState) :
    ChatComponentState :=
  if text == "" || s.isLoading then s
  else
    let s1 : ChatComponentState :=
      { s with messages := s.messages ++ [mkUserMessage now text],
               isLoading := true, error := none }
    if useStream && connected then
      let s2 : ChatComponentState :=
        { s1 with messages := s1.messages ++ [streamingPlaceholder now] }
      if emitOk then s2
      else handleNonStreamingRequest now result s2
    else handleNonStreamingRequest now result s1

deriving instance DecidableEq for Except

/-- One step of the chat session: either an inbound socket event or a user
send (with its environment flags and, where the fallback runs, the HTTP
outcome). -/
inductive ChatAction where
  | evt (now : Nat) (e : SocketEvent)
  | send (now : Nat) (text : String) (useStream connected emitOk : Bool)
      (result : Except ApiError ChatResponse)
deriving DecidableEq, Repr

/-- Whether a send action's socket emission succeeded whenever the
streaming branch was taken (i.e. the `sendChatRequest` throw-and-fallback
path never ran). -/
def ChatAction.EmitSafe : ChatAction → Prop
  | ChatAction.evt _ _ => True
  | ChatAction.send _ _ useStream connected emitOk _ =>
      (useStream && connected) = true → emitOk = true

instance : DecidablePred ChatAction.EmitSafe := by
  intro a
  cases a with
  | evt now e => exact inferInstanceAs (Decidable True)
  | send now text us c ok r =>
      exact inferInstanceAs (Decidable ((us && c) = true → ok = true))

/-- Apply one action to the component state. -/
def stepAction (a : ChatAction) (s : ChatComponentState) : ChatComponentState :=
  match a with
  | ChatAction.evt now e => applyEvent now e s
  | ChatAction.send now text us c ok r => handleSendMessage now text us c ok r s

/-- Run a whole session from the initial component state. -/
def runActions (acts : List ChatAction) : ChatComponentState :=
  acts.foldl (fun s a => stepAction a s) initChatState

/-- Number of messages currently flagged `isStreaming`. -/
def streamingCount (s : ChatComponentState) : Nat :=
  s.messages.countP (fun m => m.isStreaming)

/-- Events that either carry a token or are unrelated to the message list
(`chat_start` and `heartbeat` handlers only log). -/
def SocketEvent.isTokenOrNeutral : SocketEvent → Bool
  | SocketEvent.chatToken _ => true
  | SocketEvent.chatStart => true
  | SocketEvent.heartbeat => true
  | _ => false

/-- The token fragments carried by a timestamped event list, in delivery
order. -/
def tokenFragments : List (Nat × SocketEvent) → List String
  | [] => []
  | (_, SocketEvent.chatToken t) :: tl => t :: tokenFragments tl
  | _ :: tl => tokenFragments tl

/-- Concatenation of a list of fragments in order. -/
def concatTokens : List String → String
  | [] => ""
  | t :: ts => t ++ concatTokens ts

/-- Session invariant: no message other than the last one is flagged
streaming, and whenever the component is not loading no message at all is
flagged streaming. -/
def StreamInv (s : ChatComponentState) : Prop :=
  (∀ m ∈ s.messages.dropLast, m.isStreaming = false) ∧
  (s.isLoading = false → ∀ m ∈ s.messages, m.isStreaming = false)

/-- A conversation holding one user message and one bot message that is
mid-stream with partial text `par`. -/
def demoPartialState : ChatComponentState :=
  { messages :=
      [mkUserMessage 0 "hello",
       { id := "1", text := "par", sender := Sender.bot, timestamp := 0,
         isStreaming := true }],
    isLoading := true, error := none }

/-- A conversation whose only message is a completed (non-streaming) bot
reply. -/
def demoDoneState : ChatComponentState :=
  { messages :=
      [{ id := "9", text := "done", sender := Sender.bot, timestamp := 0,
         isStreaming := false, model := some "gemini-2.0-flash" }],
    isLoading := false, error := none }

/-- A send whose socket emission throws (stale connected flag) and whose
HTTP fallback then succeeds. -/
def demoEmitFailSend : ChatAction :=
  ChatAction.send 0 "hi" true true false
    (Except.ok { response := "resp", model := "gemini-2.0-flash" })

/-- A subsequent ordinary streaming send whose emission succeeds. -/
def demoSecondSend : ChatAction :=
  ChatAction.send 10 "again" true true true
    (Except.ok { response := "unused", model := "gemini-2.0-flash" })

/-- A conversation with a user message and the freshly opened empty
streaming placeholder. -/
def demoStreamState : ChatComponentState :=
  { messages := [mkUserMessage 0 "hello", streamingPlaceholder 0],
    isLoading := true, error := none }

end ChatCore

namespace ChatSlice

open ChatCore

/-- A selected (not yet sent) file, from the `selectedFiles` entries of the
redux chat slice; the raw browser `File` handle carries no data the
reducers inspect and is left out. -/
structure SelectedFile where
  id : String
  preview : Option String := none
  type : FileKind
deriving DecidableEq, Repr

/-- `ChatState` of the redux chat slice (`chatSlice`). -/
structure ChatState where
  messages : List StreamingMessage
  isLoading : Bool
  error : Option String
  selectedModel : String
  useStreaming : Bool
  isSocketConnected : Bool
  connectionStatus : String
  selectedFiles : List SelectedFile
  showFileUpload : Bool
deriving DecidableEq, Repr

/-- `initialState` of the chat slice. -/
def initialState : ChatState :=
  { messages := [], isLoading := false, error := none,
    selectedModel := "gemini-1.5-pro", useStreaming := true,
    isSocketConnected := false, connectionStatus := "Disconnected",
    selectedFiles := [], showFileUpload := false }

/-- `Partial<StreamingMessage>`: each field is present (`some`) or absent,
and present fields overwrite the target in the object spread of
`updateLastMessage`. -/
structure MessagePatch where
  id : Option String := none
  text : Option String := none
  sender : Option Sender := none
  timestamp : Option Nat := none
  isStreaming : Option Bool := none
  model : Option (Option String) := none
  files : Option (Option (List FileAttachment)) := none
deriving DecidableEq, Repr

/-- The object spread `{ ...last, ...patch }`. -/
def applyPatch (m : StreamingMessage) (p : MessagePatch) : StreamingMessage :=
  { id := p.id.getD m.id,
    text := p.text.getD m.text,
    sender := p.sender.getD m.sender,
    timestamp := p.timestamp.getD m.timestamp,
    isStreaming := p.isStreaming.getD m.isStreaming,
    model := p.model.getD m.model,
    files := p.files.getD m.files }

/-- `updateLastMessage` reducer: merge the patch into the last message,
guarded by `lastIndex >= 0`. -/
def updateLastMessage (p : MessagePatch) (s : ChatState) : ChatState :=
  match s.messages.getLast? with
  | some lastMessage =>
      { s with messages := s.messages.dropLast ++ [applyPatch lastMessage p] }
  | none => s

/-- `appendToLastMessage` reducer: append text to the last message, guarded
by `lastIndex >= 0 && messages[lastIndex].isStreaming`. -/
def appendToLastMessage (t : String) (s : ChatState) : ChatState :=
  match s.messages.getLast? with
  | some lastMessage =>
      if lastMessage.isStreaming then
        { s with messages := s.messages.dropLast ++
            [{ lastMessage with text := lastMessage.text ++ t }] }
      else s
  | none => s

/-- `addFileToLastMessage` reducer: push the attachment onto the last
message's `files` (initialising the array when missing), guarded by
`lastIndex >= 0`; it does not consult `isStreaming`. -/
def addFileToLastMessage (f : FileAttachment) (s : ChatState) : ChatState :=
  match s.messages.getLast? with
  | some lastMessage =>
      { s with messages := s.messages.dropLast ++
          [{ lastMessage with files := some (lastMessage.files.getD [] ++ [f]) }] }
  | none => s

end ChatSlice

namespace SocketCore

/-- State of the `SocketService` singleton (`services/socket.ts`): the
`connected` flag, the reconnect counter, the `registeredEvents` name set,
and the listener list of the underlying socket.io socket (handlers
abstracted as numeric tokens, in attachment order, possibly several per
event name).  The socket handle itself exists from construction on, so it
is not represented. -/
structure SocketServiceState where
  connected : Bool
  reconnectAttempts : Nat
  registeredEvents : List String
  listeners : List (String × Nat)
deriving DecidableEq, Repr

/-- `maxReconnectAttempts` constant of `SocketService`. -/
def maxReconnectAttempts : Nat := 5

/-- The listener tokens `initSocket` attaches directly with `socket.on`
(`connect`, `disconnect`, `connect_error`, `error`, `heartbeat`), before
any `registerEvent` call. -/
def initialSocketState : SocketServiceState :=
  { connected := false, reconnectAttempts := 0, registeredEvents := [],
    listeners := [("connect", 0), ("disconnect", 1), ("connect_error", 2),
                  ("error", 3), ("heartbeat", 4)] }

/-- The disconnect reasons the handler treats as involuntary drops. -/
def isInvoluntaryReason (reason : String) : Bool :=
  reason == "io server disconnect" || reason == "transport close"

/-- The `connect` transport event handler: mark connected and reset the
reconnect counter to 0. -/
def onConnectReceived (s : SocketServiceState) : SocketServiceState :=
  { s with connected := true, reconnectAttempts := 0 }

/-- The `disconnect` transport event handler: clear `connected`; if the
reason is involuntary and the counter is below the maximum, schedule a
reconnect timer with delay `1000 * min(reconnectAttempts + 1, 5)`
milliseconds (returned as `some delay`); finally clear
`registeredEvents`.  The counter increment lives inside the timer
callback, modelled separately by `fireReconnectTimer`. -/
def onDisconnectReceived (reason : String) (s : SocketServiceState) :
    SocketServiceState × Option Nat :=
  let s1 : SocketServiceState :=
    { s with connected := false, registeredEvents := [] }
  if isInvoluntaryReason reason && decide (s.reconnectAttempts < maxReconnectAttempts) then
    (s1, some (1000 * min (s.reconnectAttempts + 1) 5))
  else (s1, none)

/-- The scheduled reconnect timer fires: increment the counter and call
`socket.connect()` (whether that handshake later succeeds is decided by a
separate `connect` event). -/
def fireReconnectTimer (s : SocketServiceState) : SocketServiceState :=
  { s with reconnectAttempts := s.reconnectAttempts + 1 }

/-- The public `connect()` method initiates a handshake iff the socket
exists (always, post-constructor) and is not currently connected. -/
def connectInitiates (s : SocketServiceState) : Bool :=
  !s.connected

/-- One involuntary drop followed by its reconnect timer firing (when one
was scheduled) before the next drop arrives: the sequential schedule of
drop/retry cycles with no intervening successful connect. -/
def involuntaryDropCycle (reason : String) (s : SocketServiceState) :
    SocketServiceState × Option Nat :=
  match onDisconnectReceived reason s with
  | (s1, some d) => (fireReconnectTimer s1, some d)
  | (s1, none) => (s1, none)

/-- Iterate `n` consecutive involuntary drop cycles, collecting the delay
scheduled at each drop (`none` when no automatic attempt is scheduled). -/
def dropCycles (reason : String) : Nat → SocketServiceState →
    SocketServiceState × List (Option Nat)
  | 0, s => (s, [])
  | n + 1, s =>
      let p := involuntaryDropCycle reason s
      let q := dropCycles reason n p.1
      (q.1, p.2 :: q.2)

/-- `registerEvent` (`services/socket.ts`): if the event name is already in
`registeredEvents`, first `socket.off(event)` (drop every listener for
that name), then `socket.on(event, callback)` and add the name to the
set. -/
def registerEvent (event : String) (handler : Nat) (s : SocketServiceState) :
    SocketServiceState :=
  let ls :=
    if event ∈ s.registeredEvents then
      s.listeners.filter (fun p => p.1 != event)
    else s.listeners
  { s with
      listeners := ls ++ [(event, handler)],
      registeredEvents :=
        if event ∈ s.registeredEvents then s.registeredEvents
        else s.registeredEvents ++ [event] }

/-- Handlers an inbound event of the given name is delivered to, in
attachment order (socket.io invokes every listener of the name). -/
def handlersFor (event : String) (s : SocketServiceState) : List Nat :=
  (s.listeners.filter (fun p => p.1 == event)).map (fun p => p.2)

/-- Register a list of handlers for one event name in order. -/
def registerSeq (event : String) (hs : List Nat) (s : SocketServiceState) :
    SocketServiceState :=
  hs.foldl (fun st h => registerEvent event h st) s

end SocketCore

namespace Payload

open ChatCore

/-- A selected file together with the durable URL the upload collaborator
resolved for it (`apiService.uploadFile`), as consumed by the upload loop
of `handleSendMessage`. -/
structure UploadedFile where
  id : String
  name : String
  type : FileKind
  uploadedUrl : String
  preview : Option String := none
deriving DecidableEq, Repr

/-- The `fileUrls` array built by the upload loop: only image-kind files
contribute their resolved URL (`if (fileItem.type === 'image')`), in
order. -/
def fileUrlsOf (files : List UploadedFile) : List String :=
  (files.filter (fun f => f.type == FileKind.image)).map
    (fun f => f.uploadedUrl)

/-- One entry of a multimodal `content` array
(`{type:'image_url', image_url:{url}}` or `{type:'text', text}`). -/
inductive ContentPart where
  | imageUrl (url : String)
  | text (t : String)
deriving DecidableEq, Repr

/-- The default prompt substituted when no user text accompanies images. -/
def defaultVisionPrompt : String := "What do you see in this image?"

/-- `messages[0].content` of the streaming multimodal request
(`Chat.tsx`): one `image_url` part per entry of `fileUrls`, followed by a
single `text` part that holds the user's text, or the default prompt when
the (trimmed) user text is empty (falsy). -/
def buildMultimodalContent (fileUrls : List String) (userText : String) :
    List ContentPart :=
  fileUrls.map ContentPart.imageUrl ++
    (if userText == "" then [ContentPart.text defaultVisionPrompt]
     else [ContentPart.text userText])

/-- The outbound `multimodal_chat_request` payload emitted by the
streaming branch: a single user message with multimodal content, the
image `fileUrls`, and the vision model identifier. -/
structure MultimodalPayload where
  messages : List (String × List ContentPart)
  fileUrls : List String
  model : String
deriving DecidableEq, Repr

/-- Build the streaming multimodal payload from the uploaded files and the
trimmed user text, mirroring `handleSendMessage`'s multimodal branch. -/
def buildMultimodalPayload (files : List UploadedFile) (userText : String) :
    MultimodalPayload :=
  let urls := fileUrlsOf files
  { messages := [("user", buildMultimodalContent urls userText)],
    fileUrls := urls,
    model := "gemini-2.0-pro-vision" }

/-- A single selected image file whose upload resolved to a durable URL. -/
def demoCatImage : UploadedFile :=
  { id := "f1", name := "cat.png", type := ChatCore.FileKind.image,
    uploadedUrl := "http://u/cat.png", preview := some "blob:cat" }

/-- A selection holding the one image above. -/
def demoFiles : List UploadedFile := [demoCatImage]

end Payload

namespace ChatSlice

/-- An attachment used to exercise the slice reducers. -/
def demoAttachment : ChatCore.FileAttachment :=
  { id := "f9", type := ChatCore.FileKind.document, name := "notes.pdf",
    url := "http://u/notes.pdf", previewUrl := none }

end ChatSlice


namespace ChatCore

/-- Splitting a list into its initial part and last element. -/
theorem eq_nil_or_append_single {α : Type} (l : List α) :
    l = [] ∨ ∃ L a, l = L ++ [a] := by
  rcases List.eq_nil_or_concat l with h | ⟨L, a, h⟩
  · exact Or.inl h
  · exact Or.inr ⟨L, a, by simpa using h⟩

/-- Token and neutral events transform a state whose last message is
streaming by appending the concatenated fragments to that message's text
and leaving everything else unchanged. -/
theorem runEvents_token_neutral :
    ∀ (es : List (Nat × SocketEvent)) (s : ChatComponentState)
      (rest : List StreamingMessage) (m : StreamingMessage),
      s.messages = rest ++ [m] → m.isStreaming = true →
      (∀ p ∈ es, SocketEvent.isTokenOrNeutral p.2 = true) →
      runEvents es s =
        { s with messages :=
            rest ++ [{ m with text := m.text ++ concatTokens (tokenFragments es) }] } := by
  intro es
  induction es with
  | nil =>
      intro s rest m hm hstr _
      show s = _
      rw [show concatTokens (tokenFragments []) = "" from rfl, String.append_empty]
      show s = { s with messages := rest ++ [m] }
      rw [← hm]
  | cons p tl ih =>
      intro s rest m hm hstr hneutral
      obtain ⟨n, e⟩ := p
      have hne := hneutral (n, e) (List.mem_cons_self _ _)
      have htl : ∀ q ∈ tl, SocketEvent.isTokenOrNeutral q.2 = true :=
        fun q hq => hneutral q (List.mem_cons_of_mem _ hq)
      cases e with
      | chatToken t =>
          have hstep : applyEvent n (SocketEvent.chatToken t) s =
              { s with messages := rest ++ [{ m with text := m.text ++ t }] } := by
            simp [applyEvent, onChatToken, hm, List.getLast?_concat, hstr, setLast,
                  List.dropLast_concat]
          have hrec := ih { s with messages := rest ++ [{ m with text := m.text ++ t }] }
            rest { m with text := m.text ++ t } rfl (by simpa using hstr) htl
          show runEvents tl (applyEvent n (SocketEvent.chatToken t) s) = _
          rw [hstep, hrec]
          simp [tokenFragments, concatTokens, String.append_assoc]
      | chatStart =>
          show runEvents tl (applyEvent n SocketEvent.chatStart s) = _
          exact ih s rest m hm hstr htl
      | heartbeat =>
          show runEvents tl (applyEvent n SocketEvent.heartbeat s) = _
          exact ih s rest m hm hstr htl
      | chatComplete model => simp [SocketEvent.isTokenOrNeutral] at hne
      | chatError msg => simp [SocketEvent.isTokenOrNeutral] at hne
      | chatImage url => simp [SocketEvent.isTokenOrNeutral] at hne

/-- C1: while a streaming bot message (opened empty) is the last message
of the conversation, delivering any sequence of `chat_token` events with
fragments `[a, b, c, ...]`, arbitrarily interleaved with unrelated events
(`heartbeat`, `chat_start`), leaves that message's final text equal to the
concatenation of the fragments in delivery order. -/
theorem claim1_token_ordering (es : List (Nat × SocketEvent))
    (s : ChatComponentState) (rest : List StreamingMessage)
    (m : StreamingMessage) (hm : s.messages = rest ++ [m])
    (hstr : m.isStreaming = true) (hempty : m.text = "")
    (hneutral : ∀ p ∈ es, SocketEvent.isTokenOrNeutral p.2 = true) :
    (runEvents es s).messages =
      rest ++ [{ m with text := concatTokens (tokenFragments es) }] := by
  rw [runEvents_token_neutral es s rest m hm hstr hneutral]
  simp [hempty, String.empty_append]

/-- Witness for C1: fragments `Hi`, ` there` with a heartbeat in between
assemble to `Hi there`. -/
theorem claim1_token_ordering_witness :
    (runEvents [(1, SocketEvent.chatToken "Hi"), (2, SocketEvent.heartbeat),
                (3, SocketEvent.chatToken " there")] demoStreamState).messages =
      [mkUserMessage 0 "hello", { streamingPlaceholder 0 with text := "Hi there" }] := by
  have h := claim1_token_ordering
    [(1, SocketEvent.chatToken "Hi"), (2, SocketEvent.heartbeat),
     (3, SocketEvent.chatToken " there")]
    demoStreamState [mkUserMessage 0 "hello"] (streamingPlaceholder 0)
    rfl rfl rfl (by decide)
  rw [h]
  decide

/-- C4: a `chat_token` event arriving when no message in the conversation
is streaming leaves the component state entirely unchanged — no finalized
message is mutated and no message is added. -/
theorem claim4_stale_token_discard (t : String) (now : Nat)
    (s : ChatComponentState) (h : ∀ m ∈ s.messages, m.isStreaming = false) :
    applyEvent now (SocketEvent.chatToken t) s = s := by
  have hmsgs : onChatToken t s.messages = s.messages := by
    cases hq : s.messages.getLast? with
    | none => simp [onChatToken, hq]
    | some m => simp [onChatToken, hq, h m (List.mem_of_mem_getLast? hq)]
  show { s with messages := onChatToken t s.messages } = s
  rw [hmsgs]

/-- Witness for C4: a late token after completion hits a conversation with
only finalized messages and changes nothing. -/
theorem claim4_stale_token_discard_witness :
    applyEvent 9 (SocketEvent.chatToken "late") demoDoneState = demoDoneState :=
  claim4_stale_token_discard "late" 9 demoDoneState (by decide)

end ChatCore

namespace ChatCore

/-- Counterexample to C2 as stated: with a streaming bot message holding
partial text `par`, a `chat_error` event leaves a conversation of only 2
messages in which no message retains the partial text — the streaming
message is removed, not kept with `isStreaming = false`. -/
theorem claim2_keep_partial_cex :
    (applyEvent 5 (SocketEvent.chatError "rate limited")
        demoPartialState).messages.length = 2 ∧
    ((applyEvent 5 (SocketEvent.chatError "rate limited")
        demoPartialState).messages.all fun m => m.text != "par") = true := by
  constructor
  · decide
  · decide

/-- C2 (amended): when a `chat_error` event arrives while a message is
streaming, the streaming message is removed from the conversation
(its partial text is discarded), a new, separate, non-streaming bot
message with text `Sorry, I encountered an error: ` followed by the
event's message field is appended, and the error state holds the event's
message field. -/
theorem claim2_error_discards_partial (now : Nat) (raw : String)
    (s : ChatComponentState) (rest : List StreamingMessage)
    (m : StreamingMessage) (hm : s.messages = rest ++ [m])
    (hstr : m.isStreaming = true) (hraw : raw ≠ "") :
    applyEvent now (SocketEvent.chatError raw) s =
      { s with messages := rest ++ [mkErrorBubble now raw],
               error := some raw, isLoading := false } ∧
    (mkErrorBubble now raw).text =
      "Sorry, I encountered an error: " ++ raw ∧
    (mkErrorBubble now raw).isStreaming = false := by
  have hbe : (raw == "") = false := by simpa using hraw
  refine ⟨?_, ?_, rfl⟩
  · simp [applyEvent, onChatError, hm, List.getLast?_concat, hstr,
          List.dropLast_concat, errorStateOf, hbe]
  · simp [mkErrorBubble, hbe]

/-- Witness for C2 (amended): `chat_error` with message `rate limited`
mid-stream removes the partial message, appends the error bubble and
records the error string. -/
theorem claim2_error_discards_partial_witness :
    applyEvent 5 (SocketEvent.chatError "rate limited") demoPartialState =
      { demoPartialState with
          messages := [mkUserMessage 0 "hello", mkErrorBubble 5 "rate limited"],
          error := some "rate limited", isLoading := false } ∧
    (mkErrorBubble 5 "rate limited").text =
      "Sorry, I encountered an error: " ++ "rate limited" ∧
    (mkErrorBubble 5 "rate limited").isStreaming = false :=
  claim2_error_discards_partial 5 "rate limited" demoPartialState
    [mkUserMessage 0 "hello"]
    { id := "1", text := "par", sender := Sender.bot, timestamp := 0,
      isStreaming := true }
    rfl rfl (by decide)

end ChatCore

namespace ChatCore

/-- Counterexample to C3 as stated: a send whose socket emission throws
falls back to HTTP but leaves its streaming placeholder in place, and a
later successful streaming send opens a second placeholder — the
reachable state then has two messages with `isStreaming = true`. -/
theorem claim3_single_streaming_cex :
    streamingCount (runActions [demoEmitFailSend, demoSecondSend]) = 2 := by
  decide

/-- One step preserves the session invariant, provided the step is not a
send whose streaming emission failed. -/
theorem streamInv_step (a : ChatAction) (s : ChatComponentState)
    (hsafe : a.EmitSafe) (h : StreamInv s) : StreamInv (stepAction a s) := by
  obtain ⟨h1, h2⟩ := h
  cases a with
  | evt now e =>
      cases e with
      | chatStart => exact ⟨h1, h2⟩
      | heartbeat => exact ⟨h1, h2⟩
      | chatToken t =>
          have hstep : stepAction (ChatAction.evt now (SocketEvent.chatToken t)) s =
              { s with messages := onChatToken t s.messages } := rfl
          rcases eq_nil_or_append_single s.messages with hnil | ⟨l, m, hm⟩
          · have hmsgs : onChatToken t s.messages = s.messages := by
              simp [onChatToken, hnil]
            rw [hstep, hmsgs]
            exact ⟨h1, h2⟩
          · cases hstr : m.isStreaming with
            | true =>
                have hmsgs : onChatToken t s.messages =
                    l ++ [{ m with text := m.text ++ t }] := by
                  simp [onChatToken, hm, List.getLast?_concat, hstr, setLast,
                        List.dropLast_concat]
                rw [hstep, hmsgs]
                refine ⟨?_, ?_⟩
                · intro x hx
                  rw [List.dropLast_concat] at hx
                  exact h1 x (by rw [hm, List.dropLast_concat]; exact hx)
                · intro hload
                  have hmf := h2 hload m (by rw [hm]; simp)
                  simp [hstr] at hmf
            | false =>
                have hmsgs : onChatToken t s.messages = s.messages := by
                  simp [onChatToken, hm, List.getLast?_concat, hstr]
                rw [hstep, hmsgs]
                exact ⟨h1, h2⟩
      | chatImage url =>
          have hstep : stepAction (ChatAction.evt now (SocketEvent.chatImage url)) s =
              { s with messages := onChatImage url now s.messages } := rfl
          rcases eq_nil_or_append_single s.messages with hnil | ⟨l, m, hm⟩
          · have hmsgs : onChatImage url now s.messages = s.messages := by
              simp [onChatImage, hnil]
            rw [hstep, hmsgs]
            exact ⟨h1, h2⟩
          · cases hstr : m.isStreaming with
            | true =>
                have hmsgs : onChatImage url now s.messages =
                    l ++ [{ m with
                      files := some ((m.files.getD []) ++
                        [{ id := "img_" ++ toString now, type := FileKind.image,
                           name := "AI Generated Image", url := url,
                           previewUrl := some url }]) }] := by
                  simp [onChatImage, hm, List.getLast?_concat, hstr, setLast,
                        List.dropLast_concat]
                rw [hstep, hmsgs]
                refine ⟨?_, ?_⟩
                · intro x hx
                  rw [List.dropLast_concat] at hx
                  exact h1 x (by rw [hm, List.dropLast_concat]; exact hx)
                · intro hload
                  have hmf := h2 hload m (by rw [hm]; simp)
                  simp [hstr] at hmf
            | false =>
                have hmsgs : onChatImage url now s.messages = s.messages := by
                  simp [onChatImage, hm, List.getLast?_concat, hstr]
                rw [hstep, hmsgs]
                exact ⟨h1, h2⟩
      | chatComplete model =>
          rcases eq_nil_or_append_single s.messages with hnil | ⟨l, m, hm⟩
          · have hstep : stepAction (ChatAction.evt now (SocketEvent.chatComplete model)) s =
                { s with messages := s.messages, isLoading := false } := by
              simp [stepAction, applyEvent, onChatComplete, hnil]
            rw [hstep]
            refine ⟨h1, ?_⟩
            intro _ x hx
            rw [hnil] at hx
            simp at hx
          · cases hstr : m.isStreaming with
            | true =>
                have hstep : stepAction
                      (ChatAction.evt now (SocketEvent.chatComplete model)) s =
                    { s with
                        messages := l ++
                          [{ m with isStreaming := false, model := some model }],
                        isLoading := false } := by
                  simp [stepAction, applyEvent, onChatComplete, hm,
                        List.getLast?_concat, hstr, setLast, List.dropLast_concat]
                rw [hstep]
                refine ⟨?_, ?_⟩
                · intro x hx
                  rw [List.dropLast_concat] at hx
                  exact h1 x (by rw [hm, List.dropLast_concat]; exact hx)
                · intro _ x hx
                  rcases List.mem_append.mp hx with hx | hx
                  · exact h1 x (by rw [hm, List.dropLast_concat]; exact hx)
                  · simp at hx
                    rw [hx]
            | false =>
                have hstep : stepAction
                      (ChatAction.evt now (SocketEvent.chatComplete model)) s =
                    { s with messages := s.messages, isLoading := false } := by
                  simp [stepAction, applyEvent, onChatComplete, hm,
                        List.getLast?_concat, hstr]
                rw [hstep]
                refine ⟨h1, ?_⟩
                intro _ x hx
                rw [hm] at hx
                rcases List.mem_append.mp hx with hx | hx
                · exact h1 x (by rw [hm, List.dropLast_concat]; exact hx)
                · simp at hx
                  rw [hx]
                  exact hstr
      | chatError raw =>
          rcases eq_nil_or_append_single s.messages with hnil | ⟨l, m, hm⟩
          · have hstep : stepAction (ChatAction.evt now (SocketEvent.chatError raw)) s =
                { s with messages := s.messages ++ [mkErrorBubble now raw],
                         error := some (errorStateOf raw), isLoading := false } := by
              simp [stepAction, applyEvent, onChatError, hnil]
            rw [hstep]
            refine ⟨?_, ?_⟩
            · intro x hx
              rw [hnil] at hx
              simp at hx
            · intro _ x hx
              rw [hnil] at hx
              simp at hx
              rw [hx]
              rfl
          · cases hstr : m.isStreaming with
            | true =>
                have hstep : stepAction
                      (ChatAction.evt now (SocketEvent.chatError raw)) s =
                    { s with messages := l ++ [mkErrorBubble now raw],
                             error := some (errorStateOf raw),
                             isLoading := false } := by
                  simp [stepAction, applyEvent, onChatError, hm,
                        List.getLast?_concat, hstr, List.dropLast_concat]
                rw [hstep]
                refine ⟨?_, ?_⟩
                · intro x hx
                  rw [List.dropLast_concat] at hx
                  exact h1 x (by rw [hm, List.dropLast_concat]; exact hx)
                · intro _ x hx
                  rcases List.mem_append.mp hx with hx | hx
                  · exact h1 x (by rw [hm, List.dropLast_concat]; exact hx)
                  · simp at hx
                    rw [hx]
                    rfl
            | false =>
                have hstep : stepAction
                      (ChatAction.evt now (SocketEvent.chatError raw)) s =
                    { s with messages := s.messages ++ [mkErrorBubble now raw],
                             error := some (errorStateOf raw),
                             isLoading := false } := by
                  simp [stepAction, applyEvent, onChatError, hm,
                        List.getLast?_concat, hstr]
                rw [hstep]
                refine ⟨?_, ?_⟩
                · intro x hx
                  rw [List.dropLast_concat] at hx
                  rw [hm] at hx
                  rcases List.mem_append.mp hx with hx | hx
                  · exact h1 x (by rw [hm, List.dropLast_concat]; exact hx)
                  · simp at hx
                    rw [hx]
                    exact hstr
                · intro _ x hx
                  rcases List.mem_append.mp hx with hx | hx
                  · rw [hm] at hx
                    rcases List.mem_append.mp hx with hx | hx
                    · exact h1 x (by rw [hm, List.dropLast_concat]; exact hx)
                    · simp at hx
                      rw [hx]
                      exact hstr
                  · simp at hx
                    rw [hx]
                    rfl
  | send now text us c ok r =>
      cases hguard : (text == "" || s.isLoading) with
      | true =>
          have hstep : stepAction (ChatAction.send now text us c ok r) s = s := by
            simp only [stepAction, handleSendMessage, hguard, if_true]
          rw [hstep]
          exact ⟨h1, h2⟩
      | false =>
          have htext : (text == "") = false := (Bool.or_eq_false_iff.mp hguard).1
          have hload : s.isLoading = false := (Bool.or_eq_false_iff.mp hguard).2
          have hzero : ∀ x ∈ s.messages, x.isStreaming = false := h2 hload
          cases hbr : (us && c) with
          | true =>
              have hok : ok = true := hsafe hbr
              have hstep : stepAction (ChatAction.send now text us c ok r) s =
                  { s with
                      messages := (s.messages ++ [mkUserMessage now text]) ++
                        [streamingPlaceholder now],
                      isLoading := true, error := none } := by
                simp [stepAction, handleSendMessage, hguard, htext, hload, hbr, hok]
              rw [hstep]
              refine ⟨?_, ?_⟩
              · intro x hx
                rw [List.dropLast_concat] at hx
                rcases List.mem_append.mp hx with hx | hx
                · exact hzero x hx
                · simp at hx
                  rw [hx]
                  rfl
              · intro habs
                simp at habs
          | false =>
              cases r with
              | ok data =>
                  have hstep : stepAction
                        (ChatAction.send now text us c ok (Except.ok data)) s =
                      { s with
                          messages := (s.messages ++ [mkUserMessage now text]) ++
                            [mkBotMessage now data.response],
                          isLoading := false, error := none } := by
                    simp [stepAction, handleSendMessage, hguard, htext, hload, hbr,
                          handleNonStreamingRequest]
                  rw [hstep]
                  refine ⟨?_, ?_⟩
                  · intro x hx
                    rw [List.dropLast_concat] at hx
                    rcases List.mem_append.mp hx with hx | hx
                    · exact hzero x hx
                    · simp at hx
                      rw [hx]
                      rfl
                  · intro _ x hx
                    rcases List.mem_append.mp hx with hx | hx
                    · rcases List.mem_append.mp hx with hx | hx
                      · exact hzero x hx
                      · simp at hx
                        rw [hx]
                        rfl
                    · simp at hx
                      rw [hx]
                      rfl
              | error e =>
                  have hstep : stepAction
                        (ChatAction.send now text us c ok (Except.error e)) s =
                      { s with
                          messages := (s.messages ++ [mkUserMessage now text]) ++
                            [mkErrorBubble now e.message],
                          isLoading := false,
                          error := some (errorStateOf e.message) } := by
                    simp [stepAction, handleSendMessage, hguard, htext, hload, hbr,
                          handleNonStreamingRequest]
                  rw [hstep]
                  refine ⟨?_, ?_⟩
                  · intro x hx
                    rw [List.dropLast_concat] at hx
                    rcases List.mem_append.mp hx with hx | hx
                    · exact hzero x hx
                    · simp at hx
                      rw [hx]
                      rfl
                  · intro _ x hx
                    rcases List.mem_append.mp hx with hx | hx
                    · rcases List.mem_append.mp hx with hx | hx
                      · exact hzero x hx
                      · simp at hx
                        rw [hx]
                        rfl
                    · simp at hx
                      rw [hx]
                      rfl

/-- The session invariant holds along any run whose streaming emissions
all succeed. -/
theorem streamInv_run (acts : List ChatAction) :
    ∀ s : ChatComponentState, (∀ a ∈ acts, a.EmitSafe) → StreamInv s →
      StreamInv (acts.foldl (fun st a => stepAction a st) s) := by
  induction acts with
  | nil => intro s _ h; exact h
  | cons a tl ih =>
      intro s hsafe h
      exact ih (stepAction a s)
        (fun b hb => hsafe b (List.mem_cons_of_mem _ hb))
        (streamInv_step a s (hsafe a (List.mem_cons_self _ _)) h)

/-- C3 (amended): in every state reachable by message sends and socket
events in which every streaming send's emission succeeds (the
throw-and-fallback path of `sendChatRequest` never runs), at most one
message in the conversation has `isStreaming = true`. -/
theorem claim3_single_streaming_emit_safe (acts : List ChatAction)
    (hsafe : ∀ a ∈ acts, a.EmitSafe) :
    streamingCount (runActions acts) ≤ 1 := by
  have hinv : StreamInv (runActions acts) :=
    streamInv_run acts initChatState hsafe
      ⟨fun x hx => absurd hx (by simp [initChatState]),
       fun _ x hx => absurd hx (by simp [initChatState])⟩
  obtain ⟨h1, -⟩ := hinv
  rcases eq_nil_or_append_single (runActions acts).messages with hnil | ⟨l, m, hm⟩
  · simp [streamingCount, hnil]
  · have hl : l.countP (fun x => x.isStreaming) = 0 := by
      apply List.countP_eq_zero.mpr
      intro x hx
      simp [h1 x (by rw [hm, List.dropLast_concat]; exact hx)]
    unfold streamingCount
    rw [hm, List.countP_append, hl]
    simp [List.countP_cons]
    split <;> simp

/-- Witness for C3 (amended): a successful streaming exchange (send,
token, completion) is emit-safe and ends with at most one streaming
message. -/
theorem claim3_single_streaming_emit_safe_witness :
    (∀ a ∈ [demoSecondSend, ChatAction.evt 20 (SocketEvent.chatToken "Hi"),
            ChatAction.evt 30 (SocketEvent.chatComplete "gemini-2.0-flash")],
       a.EmitSafe) ∧
    streamingCount (runActions
      [demoSecondSend, ChatAction.evt 20 (SocketEvent.chatToken "Hi"),
       ChatAction.evt 30 (SocketEvent.chatComplete "gemini-2.0-flash")]) ≤ 1 :=
  ⟨by decide, claim3_single_streaming_emit_safe _ (by decide)⟩

end ChatCore

namespace ChatCore

/-- Counterexample to C6 as stated: with only a completed (non-streaming)
message in the conversation, a `chat_image` event changes nothing — no
attachment is appended to the most recently completed message. -/
theorem claim6_image_after_complete_cex :
    applyEvent 7 (SocketEvent.chatImage "http://u/gen.png") demoDoneState =
      demoDoneState ∧
    (demoDoneState.messages.all fun m => m.files == none) = true := by
  exact ⟨by decide, by decide⟩

/-- C6 (amended): a `chat_image` event arriving when the conversation is
empty or its last message is not streaming is discarded (every message is
left unchanged); arriving while the last message is streaming it appends a
FileAttachment carrying the event's url to that message without changing
its `isStreaming` state.  Separately, the redux `addFileToLastMessage`
reducer appends an attachment to the last message regardless of streaming
state, so an attachment list may still grow after streaming has ended
through that reducer. -/
theorem claim6_image_routing (url : String) (now : Nat) :
    onChatImage url now [] = [] ∧
    (∀ (rest : List StreamingMessage) (m : StreamingMessage),
      m.isStreaming = false → onChatImage url now (rest ++ [m]) = rest ++ [m]) ∧
    (∀ (rest : List StreamingMessage) (m : StreamingMessage),
      m.isStreaming = true →
        onChatImage url now (rest ++ [m]) =
          rest ++ [{ m with files := some ((m.files.getD []) ++
            [{ id := "img_" ++ toString now, type := FileKind.image,
               name := "AI Generated Image", url := url,
               previewUrl := some url }]) }] ∧
        ({ m with files := some ((m.files.getD []) ++
            [{ id := "img_" ++ toString now, type := FileKind.image,
               name := "AI Generated Image", url := url,
               previewUrl := some url }]) } : StreamingMessage).isStreaming =
          m.isStreaming) ∧
    (∀ (st : ChatSlice.ChatState) (f : FileAttachment)
       (rest : List StreamingMessage) (m : StreamingMessage),
      st.messages = rest ++ [m] →
        (ChatSlice.addFileToLastMessage f st).messages =
          rest ++ [{ m with files := some (m.files.getD [] ++ [f]) }]) := by
  refine ⟨rfl, ?_, ?_, ?_⟩
  · intro rest m hstr
    simp [onChatImage, List.getLast?_concat, hstr]
  · intro rest m hstr
    refine ⟨?_, rfl⟩
    simp [onChatImage, List.getLast?_concat, hstr, setLast, List.dropLast_concat]
  · intro st f rest m hm
    simp [ChatSlice.addFileToLastMessage, hm, List.getLast?_concat,
          List.dropLast_concat]

/-- Witness for C6 (amended): the event is discarded on an empty list and
on a completed last message, appends to a streaming last message, and the
slice reducer appends to a completed last message. -/
theorem claim6_image_routing_witness :
    onChatImage "http://u/gen.png" 3 [] = [] ∧
    onChatImage "http://u/gen.png" 3 ([] ++ [mkBotMessage 0 "done"]) =
      [] ++ [mkBotMessage 0 "done"] ∧
    (onChatImage "http://u/gen.png" 3
        ([mkUserMessage 0 "hello"] ++ [streamingPlaceholder 0]) =
      [mkUserMessage 0 "hello"] ++
        [{ streamingPlaceholder 0 with
            files := some (((streamingPlaceholder 0).files.getD []) ++
              [{ id := "img_" ++ toString 3, type := FileKind.image,
                 name := "AI Generated Image", url := "http://u/gen.png",
                 previewUrl := some "http://u/gen.png" }]) }] ∧
      ({ streamingPlaceholder 0 with
          files := some (((streamingPlaceholder 0).files.getD []) ++
            [{ id := "img_" ++ toString 3, type := FileKind.image,
               name := "AI Generated Image", url := "http://u/gen.png",
               previewUrl := some "http://u/gen.png" }]) } :
        StreamingMessage).isStreaming = (streamingPlaceholder 0).isStreaming) ∧
    (ChatSlice.addFileToLastMessage ChatSlice.demoAttachment
        { ChatSlice.initialState with messages := [mkBotMessage 0 "done"] }).messages =
      [] ++ [{ mkBotMessage 0 "done" with
          files := some ((mkBotMessage 0 "done").files.getD [] ++
            [ChatSlice.demoAttachment]) }] := by
  have h := claim6_image_routing "http://u/gen.png" 3
  exact ⟨h.1, h.2.1 [] (mkBotMessage 0 "done") rfl,
         h.2.2.1 [mkUserMessage 0 "hello"] (streamingPlaceholder 0) rfl,
         h.2.2.2 { ChatSlice.initialState with messages := [mkBotMessage 0 "done"] }
           ChatSlice.demoAttachment [] (mkBotMessage 0 "done") rfl⟩

/-- C7: a text send while the socket is disconnected (or streaming mode is
off) runs the HTTP fallback: exactly one bot message is appended after the
user message — on success its text is the fallback's `response` field, on
failure it is a single non-streaming error bubble — and no streaming
placeholder is ever created (every appended message has
`isStreaming = false`).  The embedded `handleSendMessage` is a total
function, mirroring that the source path catches every failure and lets no
exception escape to the caller. -/
theorem claim7_fallback_correctness (now : Nat) (text : String)
    (us c ok : Bool) (r : Except ApiError ChatResponse)
    (s : ChatComponentState) (htext : text ≠ "") (hload : s.isLoading = false)
    (hcond : us = false ∨ c = false) :
    (∀ data, r = Except.ok data →
       handleSendMessage now text us c ok r s =
         { s with
             messages := s.messages ++
               [mkUserMessage now text, mkBotMessage now data.response],
             isLoading := false, error := none } ∧
       (mkBotMessage now data.response).text = data.response ∧
       (mkBotMessage now data.response).sender = Sender.bot ∧
       (mkBotMessage now data.response).isStreaming = false ∧
       (mkUserMessage now text).sender = Sender.user ∧
       (mkUserMessage now text).isStreaming = false) ∧
    (∀ e, r = Except.error e →
       handleSendMessage now text us c ok r s =
         { s with
             messages := s.messages ++
               [mkUserMessage now text, mkErrorBubble now e.message],
             isLoading := false, error := some (errorStateOf e.message) } ∧
       (mkErrorBubble now e.message).sender = Sender.bot ∧
       (mkErrorBubble now e.message).isStreaming = false) := by
  have htext' : (text == "") = false := by simpa using htext
  have hbr : (us && c) = false := by
    rcases hcond with h | h <;> simp [h]
  constructor
  · intro data hr
    subst hr
    refine ⟨?_, rfl, rfl, rfl, rfl, rfl⟩
    simp [handleSendMessage, htext', hload, hbr, handleNonStreamingRequest]
  · intro e hr
    subst hr
    refine ⟨?_, rfl, rfl⟩
    simp [handleSendMessage, htext', hload, hbr, handleNonStreamingRequest]

/-- Witness for C7: a disconnected send with a successful fallback yields
the single bot reply, and one with a failing fallback yields the single
error bubble. -/
theorem claim7_fallback_correctness_witness :
    (handleSendMessage 0 "hello" true false true
        (Except.ok { response := "hi there", model := "gemini-2.0-flash" })
        initChatState =
      { initChatState with
          messages := initChatState.messages ++
            [mkUserMessage 0 "hello", mkBotMessage 0 "hi there"],
          isLoading := false, error := none }) ∧
    (handleSendMessage 0 "hello" false true true
        (Except.error { status := 500, message := "boom" }) initChatState =
      { initChatState with
          messages := initChatState.messages ++
            [mkUserMessage 0 "hello", mkErrorBubble 0 "boom"],
          isLoading := false, error := some (errorStateOf "boom") }) := by
  have h1 := claim7_fallback_correctness 0 "hello" true false true
    (Except.ok { response := "hi there", model := "gemini-2.0-flash" })
    initChatState (by decide) rfl (Or.inr rfl)
  have h2 := claim7_fallback_correctness 0 "hello" false true true
    (Except.error { status := 500, message := "boom" })
    initChatState (by decide) rfl (Or.inl rfl)
  exact ⟨(h1.1 _ rfl).1, (h2.2 _ rfl).1⟩

end ChatCore

namespace ChatSlice

open ChatCore

/-- C10: every last-message-targeting reducer of the chat slice
(`updateLastMessage`, `appendToLastMessage`, `addFileToLastMessage`) is a
total no-op on an empty message list: it is a total function (no
out-of-bounds access is possible in the embedding) and returns the state
unchanged. -/
theorem claim10_empty_list_noop (p : MessagePatch) (t : String)
    (f : FileAttachment) (s : ChatState) (h : s.messages = []) :
    updateLastMessage p s = s ∧ appendToLastMessage t s = s ∧
    addFileToLastMessage f s = s := by
  refine ⟨?_, ?_, ?_⟩ <;>
    simp [updateLastMessage, appendToLastMessage, addFileToLastMessage, h]

/-- Witness for C10: the three reducers leave the initial (empty) slice
state unchanged. -/
theorem claim10_empty_list_noop_witness :
    updateLastMessage { text := some "x" } initialState = initialState ∧
    appendToLastMessage "x" initialState = initialState ∧
    addFileToLastMessage demoAttachment initialState = initialState :=
  claim10_empty_list_noop { text := some "x" } "x" demoAttachment
    initialState rfl

end ChatSlice

namespace SocketCore

/-- C5: starting from a fresh reconnect counter, 5 consecutive involuntary
drops (each reconnect timer firing before the next drop, with no
intervening successful connect) schedule exactly 5 automatic reconnect
attempts with delays 1s, 2s, 3s, 4s, 5s — increasing with the attempt
number and capped at 5000 ms — and a 6th drop schedules none; this holds
for both involuntary reasons; the public `connect()` still initiates a
handshake after exhaustion, and any successful connect event resets the
counter to 0. -/
theorem claim5_reconnect_backoff :
    (dropCycles "transport close" 5 initialSocketState).2 =
      [some 1000, some 2000, some 3000, some 4000, some 5000] ∧
    (dropCycles "transport close" 6 initialSocketState).2 =
      [some 1000, some 2000, some 3000, some 4000, some 5000, none] ∧
    (dropCycles "io server disconnect" 6 initialSocketState).2 =
      [some 1000, some 2000, some 3000, some 4000, some 5000, none] ∧
    ((dropCycles "transport close" 6 initialSocketState).2.all
      (fun d => d.getD 0 ≤ 5000)) = true ∧
    ((dropCycles "transport close" 6 initialSocketState).2.filterMap id) =
      [1000, 2000, 3000, 4000, 5000] ∧
    connectInitiates (dropCycles "transport close" 6 initialSocketState).1 =
      true ∧
    (∀ s : SocketServiceState, (onConnectReceived s).reconnectAttempts = 0) :=
  ⟨by decide, by decide, by decide, by decide, by decide, by decide,
   fun _ => rfl⟩

/-- Listeners that survive an `off` for `e` never match `e`. -/
theorem filter_beq_after_bne (e : String) (ls : List (String × Nat)) :
    (ls.filter (fun p => p.1 != e)).filter (fun p => p.1 == e) = [] := by
  apply List.filter_eq_nil_iff.mpr
  intro p hp
  have h2 := (List.mem_filter.mp hp).2
  simp at h2
  simp [h2]

/-- Removing `e`-listeners twice is the same as removing them once. -/
theorem filter_bne_idem (e : String) (ls : List (String × Nat)) :
    (ls.filter (fun p => p.1 != e)).filter (fun p => p.1 != e) =
      ls.filter (fun p => p.1 != e) := by
  rw [List.filter_filter]
  simp

/-- If no listener matches `e`, an `off` for `e` removes nothing. -/
theorem filter_bne_of_no_handler (e : String) (s : SocketServiceState)
    (hnil : handlersFor e s = []) :
    s.listeners.filter (fun p => p.1 != e) = s.listeners := by
  have hfe : s.listeners.filter (fun p => p.1 == e) = [] :=
    List.map_eq_nil_iff.mp hnil
  apply List.filter_eq_self.mpr
  intro p hp
  have := List.filter_eq_nil_iff.mp hfe p hp
  simpa using this

/-- After a registration under the clean precondition, the new handler is
the only listener for `e`, and `e` is recorded in the registered set. -/
theorem handlersFor_register_self (e : String) (h : Nat)
    (s : SocketServiceState)
    (hclean : handlersFor e s = [] ∨ e ∈ s.registeredEvents) :
    handlersFor e (registerEvent e h s) = [h] ∧
    e ∈ (registerEvent e h s).registeredEvents := by
  by_cases hmem : e ∈ s.registeredEvents
  · refine ⟨?_, by simp [registerEvent, hmem]⟩
    simp [handlersFor, registerEvent, hmem, List.filter_append,
          filter_beq_after_bne]
  · have hnil : handlersFor e s = [] := by
      rcases hclean with h | h
      · exact h
      · exact absurd h hmem
    have hfe : s.listeners.filter (fun p => p.1 == e) = [] :=
      List.map_eq_nil_iff.mp hnil
    refine ⟨?_, by simp [registerEvent, hmem]⟩
    simp [handlersFor, registerEvent, hmem, List.filter_append, hfe]

/-- The clean precondition survives any register sequence. -/
theorem registerSeq_clean (e : String) :
    ∀ (hs : List Nat) (s : SocketServiceState),
      (handlersFor e s = [] ∨ e ∈ s.registeredEvents) →
      (handlersFor e (registerSeq e hs s) = [] ∨
        e ∈ (registerSeq e hs s).registeredEvents) := by
  intro hs
  induction hs with
  | nil => intro s hclean; exact hclean
  | cons h tl ih =>
      intro s hclean
      exact ih (registerEvent e h s)
        (Or.inr (handlersFor_register_self e h s hclean).2)

/-- C9: `registerEvent` removes the previous handler for an event name
before attaching the new one, provided the service state is clean for
that name (no stray listener outside the registered set — true of every
chat event from construction on): registering twice equals registering
once with the latest handler, and after any register sequence an inbound
event of that name is delivered exactly once, to the most recently
registered handler. -/
theorem claim9_register_dedup (e : String) (h₁ h₂ : Nat)
    (s : SocketServiceState)
    (hclean : handlersFor e s = [] ∨ e ∈ s.registeredEvents) :
    registerEvent e h₂ (registerEvent e h₁ s) = registerEvent e h₂ s ∧
    handlersFor e (registerEvent e h₂ (registerEvent e h₁ s)) = [h₂] ∧
    (∀ (hs : List Nat) (hLast : Nat),
      handlersFor e (registerSeq e (hs ++ [hLast]) s) = [hLast]) := by
  refine ⟨?_, ?_, ?_⟩
  · by_cases hmem : e ∈ s.registeredEvents
    · simp [registerEvent, hmem, List.filter_append, filter_bne_idem]
    · have hnil : handlersFor e s = [] := by
        rcases hclean with h | h
        · exact h
        · exact absurd h hmem
      simp [registerEvent, hmem, List.filter_append,
            filter_bne_of_no_handler e s hnil]
  · exact (handlersFor_register_self e h₂ (registerEvent e h₁ s)
      (Or.inr (handlersFor_register_self e h₁ s hclean).2)).1
  · intro hs hLast
    have hsplit : registerSeq e (hs ++ [hLast]) s =
        registerEvent e hLast (registerSeq e hs s) := by
      simp [registerSeq, List.foldl_append]
    rw [hsplit]
    exact (handlersFor_register_self e hLast (registerSeq e hs s)
      (registerSeq_clean e hs s hclean)).1

/-- Witness for C9: on the freshly constructed service state, registering
for `chat_token` twice equals registering once, and a three-step register
sequence leaves exactly the last handler attached. -/
theorem claim9_register_dedup_witness :
    (registerEvent "chat_token" 11
        (registerEvent "chat_token" 10 initialSocketState) =
      registerEvent "chat_token" 11 initialSocketState) ∧
    handlersFor "chat_token" (registerEvent "chat_token" 11
      (registerEvent "chat_token" 10 initialSocketState)) = [11] ∧
    handlersFor "chat_token"
      (registerSeq "chat_token" ([10, 11] ++ [12]) initialSocketState) =
      [12] := by
  have h := claim9_register_dedup "chat_token" 10 11 initialSocketState
    (Or.inl (by decide))
  exact ⟨h.1, h.2.1, h.2.2 [10, 11] 12⟩

end SocketCore

namespace Payload

open ChatCore

/-- C8: for a streaming multimodal send with at least one image attachment
and no user text, `messages[0].content` is exactly one `image_url` entry
per uploaded image URL followed by (hence ordered before) a single `text`
entry holding the non-empty default prompt; `fileUrls` holds every
image-kind attachment's resolved upload URL and only image-kind URLs. -/
theorem claim8_multimodal_default_prompt (files : List UploadedFile)
    (himg : ∃ f ∈ files, f.type = FileKind.image) :
    (buildMultimodalPayload files "").messages =
      [("user", (fileUrlsOf files).map ContentPart.imageUrl ++
        [ContentPart.text defaultVisionPrompt])] ∧
    defaultVisionPrompt ≠ "" ∧
    fileUrlsOf files ≠ [] ∧
    (buildMultimodalPayload files "").fileUrls = fileUrlsOf files ∧
    (∀ f ∈ files, f.type = FileKind.image →
      f.uploadedUrl ∈ fileUrlsOf files) ∧
    (∀ u ∈ fileUrlsOf files,
      ∃ f ∈ files, f.type = FileKind.image ∧ f.uploadedUrl = u) := by
  refine ⟨?_, by decide, ?_, rfl, ?_, ?_⟩
  · simp [buildMultimodalPayload, buildMultimodalContent]
  · intro hnil
    have hfe : files.filter (fun g => g.type == FileKind.image) = [] :=
      List.map_eq_nil_iff.mp hnil
    obtain ⟨f, hf, hft⟩ := himg
    have hmem : f ∈ files.filter (fun g => g.type == FileKind.image) :=
      List.mem_filter.mpr ⟨hf, by simp [hft]⟩
    rw [hfe] at hmem
    simp at hmem
  · intro f hf hft
    exact List.mem_map.mpr
      ⟨f, List.mem_filter.mpr ⟨hf, by simp [hft]⟩, rfl⟩
  · intro u hu
    obtain ⟨f, hf, hfu⟩ := List.mem_map.mp hu
    obtain ⟨hf1, hf2⟩ := List.mem_filter.mp hf
    exact ⟨f, hf1, by simpa using hf2, hfu⟩

/-- Witness for C8: one image attachment and no text — the payload holds
the image entry before the default-prompt text entry and the resolved URL
is in `fileUrls`. -/
theorem claim8_multimodal_default_prompt_witness :
    (buildMultimodalPayload demoFiles "").messages =
      [("user", (fileUrlsOf demoFiles).map ContentPart.imageUrl ++
        [ContentPart.text defaultVisionPrompt])] ∧
    fileUrlsOf demoFiles ≠ [] ∧
    (buildMultimodalPayload demoFiles "").fileUrls = fileUrlsOf demoFiles ∧
    "http://u/cat.png" ∈ fileUrlsOf demoFiles := by
  have h := claim8_multimodal_default_prompt demoFiles
    ⟨demoCatImage, by decide, rfl⟩
  exact ⟨h.1, h.2.2.1, h.2.2.2.1,
         h.2.2.2.2.1 demoCatImage (by decide) rfl⟩

end Payload
